import Mathlib

/-!
Verification of the Summit-Engine 2D scene/UI framework (src/summitengine.py)
against its natural-language specification.

The shallow embedding below translates the source classes into Lean
structures and their methods into pure functions.  Coordinates and sizes are
modelled as `Int` (pygame rects hold machine integers and no arithmetic here
approaches overflow; the Python code performs exact small-integer
arithmetic).  Colors are the (r,g,b) tuples the source passes around.  The
pygame event objects consumed by the code are modelled by the inductive
`Event` with exactly the fields the code reads (type, pos, button, key,
unicode).  `print` side effects are modelled by returning the list of
printed lines alongside the new state; drawing side effects are modelled by
a `Screen` state that logs the issued draw commands and tracks the current
clip region.
-/

/-- Colors are the (r,g,b) integer tuples used throughout the source. -/
abbrev Color := Int × Int × Int

/-- pygame.Rect as used by the source: x, y, width, height. -/
structure Rect where
  x : Int
  y : Int
  w : Int
  h : Int
deriving Repr, DecidableEq

/-- pygame.Rect.collidepoint: a point along the right or bottom edge is not
inside the rect (pygame tests `x >= r.x && x < r.x + r.w && y >= r.y &&
y < r.y + r.h`). -/
def Rect.collidepoint (r : Rect) (px py : Int) : Bool :=
  decide (r.x ≤ px) && decide (px < r.x + r.w) &&
  decide (r.y ≤ py) && decide (py < r.y + r.h)

/-- pygame.K_RETURN. -/
def K_RETURN : Int := 13

/-- pygame.K_BACKSPACE. -/
def K_BACKSPACE : Int := 8

/-- The pygame events the source code inspects: QUIT, MOUSEBUTTONDOWN
(with `event.pos` and `event.button`), and KEYDOWN (with `event.key` and
`event.unicode`).  Scroll wheel input arrives as MOUSEBUTTONDOWN with
button 4 (up) or 5 (down). -/
inductive Event where
  | quit : Event
  | mouseButtonDown (pos : Int × Int) (button : Int) : Event
  | keyDown (key : Int) (unicode : String) : Event
deriving Repr, DecidableEq

/-- Draw operations issued to the screen surface, logged in order. -/
inductive DrawCmd where
  | fillRect (r : Rect) (c : Color) : DrawCmd
  | setClip (r : Option Rect) : DrawCmd
deriving Repr, DecidableEq

/-- The screen surface: current clip region (`none` = no clip, the whole
surface) and the ordered log of draw operations issued so far. -/
structure Screen where
  clip : Option Rect
  cmds : List DrawCmd
deriving Repr, DecidableEq

/-- screen.set_clip(r): changes the clip region (an output-relevant
operation, so it is logged). -/
def Screen.set_clip (screen : Screen) (r : Option Rect) : Screen :=
  { screen with clip := r, cmds := screen.cmds ++ [DrawCmd.setClip r] }

/-- screen.get_clip(). -/
def Screen.get_clip (screen : Screen) : Option Rect :=
  screen.clip

/-- class GameObject: rect and color, set by `__init__`. -/
structure GameObject where
  rect : Rect
  color : Color
deriving Repr, DecidableEq

/-- GameObject.__init__(x, y, width, height, color): builds
pygame.Rect(x, y, width, height) and stores the color.  pygame.Rect
accepts any integer sizes, non-positive included; no validation occurs. -/
def GameObject.init (x y width height : Int) (color : Color) : GameObject :=
  { rect := { x := x, y := y, w := width, h := height }, color := color }

/-- GameObject.draw: pygame.draw.rect(screen, color, rect). -/
def GameObject.draw (g : GameObject) (screen : Screen) : Screen :=
  { screen with cmds := screen.cmds ++ [DrawCmd.fillRect g.rect g.color] }

/-- class Button(GameObject): adds text, text_color and a font of the given
size. -/
structure Button where
  rect : Rect
  color : Color
  text : String
  text_color : Color
  font_size : Int
deriving Repr, DecidableEq

/-- Button.__init__. -/
def Button.init (x y width height : Int) (color : Color) (text : String)
    (text_color : Color) (font_size : Int) : Button :=
  { rect := { x := x, y := y, w := width, h := height }, color := color,
    text := text, text_color := text_color, font_size := font_size }

/-- Button.is_clicked(mouse_pos): `self.rect.collidepoint(mouse_pos)`.
A pure function of the button and the point. -/
def Button.is_clicked (b : Button) (mouse_pos : Int × Int) : Bool :=
  b.rect.collidepoint mouse_pos.1 mouse_pos.2

/-- class Label(GameObject): adds text, text_color, font.  No event
handling. -/
structure Label where
  rect : Rect
  color : Color
  text : String
  text_color : Color
  font_size : Int
deriving Repr, DecidableEq

/-- Label.__init__. -/
def Label.init (x y width height : Int) (color : Color) (text : String)
    (text_color : Color) (font_size : Int) : Label :=
  { rect := { x := x, y := y, w := width, h := height }, color := color,
    text := text, text_color := text_color, font_size := font_size }

/-- class InputBox(GameObject): text buffer and focus flag, initially ""
and False. -/
structure InputBox where
  rect : Rect
  color : Color
  text_color : Color
  font_size : Int
  text : String
  active : Bool
deriving Repr, DecidableEq

/-- InputBox.__init__. -/
def InputBox.init (x y width height : Int) (color text_color : Color)
    (font_size : Int) : InputBox :=
  { rect := { x := x, y := y, w := width, h := height }, color := color,
    text_color := text_color, font_size := font_size,
    text := "", active := false }

/-- InputBox.handle_event: on MOUSEBUTTONDOWN (any button), toggle `active`
if the position collides with the rect, otherwise set it False; then, on
KEYDOWN while active, Return prints the buffer and clears it, Backspace
drops the last character (`self.text[:-1]`), and any other key appends
`event.unicode`.  Returns the new box and the printed lines. -/
def InputBox.handle_event (box : InputBox) (event : Event) :
    InputBox × List String :=
  let box :=
    match event with
    | Event.mouseButtonDown pos _ =>
        if box.rect.collidepoint pos.1 pos.2 then
          { box with active := !box.active }
        else
          { box with active := false }
    | _ => box
  match event with
  | Event.keyDown key unicode =>
      if box.active then
        if key = K_RETURN then
          ({ box with text := "" }, ["Input: " ++ box.text])
        else if key = K_BACKSPACE then
          ({ box with text := box.text.dropRight 1 }, [])
        else
          ({ box with text := box.text ++ unicode }, [])
      else
        (box, [])
  | _ => (box, [])

/-- Folds a sequence of events through InputBox.handle_event, keeping the
box state (printed output discarded). -/
def InputBox.run (box : InputBox) (events : List Event) : InputBox :=
  events.foldl (fun b e => (b.handle_event e).1) box

/-- class ScrollView(GameObject): content_height, scroll_y (initially 0)
and the child list.  The source `__init__` leaves `children` unset; the
caller assigns it before the first draw (as the example usage does), so the
embedding carries the field explicitly. -/
structure ScrollView where
  rect : Rect
  color : Color
  content_height : Int
  scroll_y : Int
  children : List GameObject
deriving Repr, DecidableEq

/-- ScrollView.__init__(x, y, width, height, color, content_height):
scroll_y starts at 0; `children` is assigned by the caller afterwards
(modelled as initially empty). -/
def ScrollView.init (x y width height : Int) (color : Color)
    (content_height : Int) : ScrollView :=
  { rect := { x := x, y := y, w := width, h := height }, color := color,
    content_height := content_height, scroll_y := 0, children := [] }

/-- ScrollView.handle_event: on MOUSEBUTTONDOWN colliding with the rect,
button 4 (scroll up) sets `scroll_y = min(scroll_y + 10, 0)` and button 5
(scroll down) sets
`scroll_y = max(scroll_y - 10, -(content_height - rect.height))`. -/
def ScrollView.handle_event (sv : ScrollView) (event : Event) : ScrollView :=
  match event with
  | Event.mouseButtonDown pos button =>
      if sv.rect.collidepoint pos.1 pos.2 then
        let sv :=
          if button = 4 then
            { sv with scroll_y := min (sv.scroll_y + 10) 0 }
          else sv
        let sv :=
          if button = 5 then
            { sv with scroll_y :=
                (max (sv.scroll_y - 10) (-(sv.content_height - sv.rect.h))) }
          else sv
        sv
      else sv
  | _ => sv

/-- Folds a sequence of events through ScrollView.handle_event. -/
def ScrollView.run (sv : ScrollView) (events : List Event) : ScrollView :=
  events.foldl ScrollView.handle_event sv

/-- The per-child body of the loop in ScrollView.draw:
`child.rect.y += scroll_y; child.draw(screen); child.rect.y -= scroll_y`.
The accumulator carries the screen and the child list as mutated so far. -/
def ScrollView.drawChild (scroll_y : Int) (acc : Screen × List GameObject)
    (child : GameObject) : Screen × List GameObject :=
  let child := { child with rect := { child.rect with y := child.rect.y + scroll_y } }
  let screen := child.draw acc.1
  let child := { child with rect := { child.rect with y := child.rect.y - scroll_y } }
  (screen, acc.2 ++ [child])

/-- ScrollView.draw: save the clip, clip to own rect, draw the base rect
(super().draw), draw each child shifted by scroll_y and shift it back,
restore the clip.  Returns the view (with its possibly mutated children)
and the screen. -/
def ScrollView.draw (sv : ScrollView) (screen : Screen) :
    ScrollView × Screen :=
  let clip_rect := screen.get_clip
  let screen := screen.set_clip (some sv.rect)
  let screen := GameObject.draw { rect := sv.rect, color := sv.color } screen
  let p := sv.children.foldl (ScrollView.drawChild sv.scroll_y) (screen, [])
  let screen := p.1.set_clip clip_rect
  ({ sv with children := p.2 }, screen)

/-- The closed set of things the example wiring appends to
`engine.ui_elements`; the router discriminates them with `isinstance`
exactly as the tags discriminate the variants here. -/
inductive UIElement where
  | gameObject (g : GameObject) : UIElement
  | button (b : Button) : UIElement
  | label (l : Label) : UIElement
  | inputBox (box : InputBox) : UIElement
  | scrollView (sv : ScrollView) : UIElement
deriving Repr, DecidableEq

/-- The inner loop of GameEngine.handle_events for a primary-button press:
`for ui_element in self.ui_elements: if isinstance(ui_element, Button) and
ui_element.is_clicked(event.pos): print(...)`.  Returns the printed lines
in order. -/
def clickScan (pos : Int × Int) : List UIElement → List String
  | [] => []
  | UIElement.button b :: rest =>
      if b.is_clicked pos then
        ("Button \x27" ++ b.text ++ "\x27 clicked!") :: clickScan pos rest
      else clickScan pos rest
  | _ :: rest => clickScan pos rest

/-- The forwarding step for one element:
`if isinstance(ui_element, (InputBox, ScrollView)): ui_element.handle_event(event)`.
Other elements are untouched.  Returns the new element and its printed
lines. -/
def UIElement.route (u : UIElement) (event : Event) : UIElement × List String :=
  match u with
  | UIElement.inputBox box =>
      let p := box.handle_event event
      (UIElement.inputBox p.1, p.2)
  | UIElement.scrollView sv => (UIElement.scrollView (sv.handle_event event), [])
  | u => (u, [])

/-- The forwarding loop of GameEngine.handle_events over the widget list,
in list order, collecting printed lines. -/
def routeList (ui : List UIElement) (event : Event) :
    List UIElement × List String :=
  match ui with
  | [] => ([], [])
  | u :: rest =>
      let p := u.route event
      let q := routeList rest event
      (p.1 :: q.1, p.2 ++ q.2)

/-- class GameEngine: the state the event router touches (the screen,
clock and window-creation collaborators are external).  `__init__` sets
running = True and empty object/widget lists. -/
structure GameEngine where
  running : Bool
  game_objects : List GameObject
  ui_elements : List UIElement
deriving Repr, DecidableEq

/-- The body of GameEngine.handle_events for a single event: set
running = False on QUIT, scan buttons on a button-1 MOUSEBUTTONDOWN,
then forward the event to every InputBox and ScrollView.  The accumulator
carries the engine and the lines printed so far. -/
def GameEngine.handle_one (st : GameEngine × List String) (event : Event) :
    GameEngine × List String :=
  let engine := st.1
  let out := st.2
  let engine :=
    match event with
    | Event.quit => { engine with running := false }
    | _ => engine
  let out :=
    match event with
    | Event.mouseButtonDown pos button =>
        if button = 1 then out ++ clickScan pos engine.ui_elements else out
    | _ => out
  let p := routeList engine.ui_elements event
  ({ engine with ui_elements := p.1 }, out ++ p.2)

/-- GameEngine.handle_events: the `for event in pygame.event.get()` loop
over the frame's event queue, with no early exit.  Returns the final
engine state and everything printed. -/
def GameEngine.handle_events (engine : GameEngine) (events : List Event) :
    GameEngine × List String :=
  events.foldl GameEngine.handle_one (engine, [])

/-- The widget-forwarding effect of a whole event queue on the widget list
alone (what the queue does to the widgets through their own handle_event,
ignoring the running flag and the printed output). -/
def routeAllEvents (ui : List UIElement) (events : List Event) :
    List UIElement :=
  events.foldl (fun ui e => (routeList ui e).1) ui

/-- The Buttons of a widget list, in order (what `isinstance(u, Button)`
selects). -/
def buttonsOf : List UIElement → List Button
  | [] => []
  | UIElement.button b :: rest => b :: buttonsOf rest
  | _ :: rest => buttonsOf rest

/-- The click line GameEngine.handle_events prints for a hit button. -/
def clickMessage (b : Button) : String :=
  "Button \x27" ++ b.text ++ "\x27 clicked!"

/-- Concatenation of a list of strings, in order. -/
def strConcat : List String → String
  | [] => ""
  | s :: rest => s ++ strConcat rest

/-- C6: Button.is_clicked is the pure half-open containment test: true iff
p.x lies in [bounds.x, bounds.x + bounds.width) and p.y lies in
[bounds.y, bounds.y + bounds.height).  It is a pure function of the button
and the point and returns no modified state. -/
theorem Button.is_clicked_iff (b : Button) (p : Int × Int) :
    b.is_clicked p = true ↔
      (b.rect.x ≤ p.1 ∧ p.1 < b.rect.x + b.rect.w ∧
       b.rect.y ≤ p.2 ∧ p.2 < b.rect.y + b.rect.h) := by
  simp [Button.is_clicked, Rect.collidepoint, and_assoc]

/-- C9: InputBox.handle_event reacts to every MOUSEBUTTONDOWN event
whatever its button id (scroll-wheel buttons 4 and 5 included): the focus
flag becomes the toggled value when the position collides with the bounds
and false otherwise, and the result is identical to what a primary-button
press at the same position produces. -/
theorem InputBox.focus_any_button (box : InputBox) (pos : Int × Int)
    (button : Int) :
    ((box.handle_event (Event.mouseButtonDown pos button)).1.active
       = if box.rect.collidepoint pos.1 pos.2 then !box.active else false)
    ∧ (box.handle_event (Event.mouseButtonDown pos button)
       = box.handle_event (Event.mouseButtonDown pos 1)) := by
  refine ⟨?_, rfl⟩
  simp only [InputBox.handle_event]
  split <;> rfl

/-- C4: a pointer press inside an InputBox's bounds toggles the focus
flag, so two consecutive presses inside bounds restore it; in particular
two presses from Unfocused end Unfocused. -/
theorem InputBox.press_inside_twice_id (box : InputBox) (pos : Int × Int)
    (button : Int) (h : box.rect.collidepoint pos.1 pos.2 = true) :
    ((((box.handle_event (Event.mouseButtonDown pos button)).1.handle_event
        (Event.mouseButtonDown pos button)).1.active = box.active)
    ∧ (box.active = false →
       (((box.handle_event (Event.mouseButtonDown pos button)).1.handle_event
          (Event.mouseButtonDown pos button)).1.active = false))) := by
  have hmain : ((box.handle_event (Event.mouseButtonDown pos button)).1.handle_event
      (Event.mouseButtonDown pos button)).1.active = box.active := by
    simp [InputBox.handle_event, h]
  exact ⟨hmain, fun hfalse => by rw [hmain, hfalse]⟩

/-- Witness for C4 at a concrete box and point: the press position (5,5)
lies inside the box at (0,0,10,10), and two presses there return the focus
flag to its initial false. -/
theorem InputBox.press_inside_twice_id_witness :
    ((InputBox.init 0 0 10 10 (255, 255, 255) (0, 0, 0) 32).rect.collidepoint 5 5 = true)
    ∧ ((((InputBox.init 0 0 10 10 (255, 255, 255) (0, 0, 0) 32).handle_event
          (Event.mouseButtonDown (5, 5) 1)).1.handle_event
          (Event.mouseButtonDown (5, 5) 1)).1.active
        = (InputBox.init 0 0 10 10 (255, 255, 255) (0, 0, 0) 32).active) :=
  ⟨by decide,
   (InputBox.press_inside_twice_id
      (InputBox.init 0 0 10 10 (255, 255, 255) (0, 0, 0) 32) (5, 5) 1
      (by decide)).1⟩

/-- C10: while focused, a KEYDOWN whose key is neither Return nor
Backspace appends the event's unicode string to the buffer (non-printable
keys included); an empty unicode string leaves the buffer unchanged; and
no KEYDOWN event of any kind changes the focus flag. -/
theorem InputBox.keydown_appends_unicode (box : InputBox) (key : Int)
    (unicode : String) (hact : box.active = true)
    (hret : key ≠ K_RETURN) (hback : key ≠ K_BACKSPACE) :
    ((box.handle_event (Event.keyDown key unicode)).1.text = box.text ++ unicode)
    ∧ (unicode = "" → (box.handle_event (Event.keyDown key unicode)).1.text = box.text)
    ∧ (∀ (k : Int) (u : String),
        (box.handle_event (Event.keyDown k u)).1.active = box.active) := by
  refine ⟨?_, ?_, ?_⟩
  · simp [InputBox.handle_event, hact, hret, hback]
  · intro hu
    simp [InputBox.handle_event, hact, hret, hback, hu]
  · intro k u
    simp only [InputBox.handle_event]
    split_ifs <;> rfl

/-- Witness for C10 at a concrete focused box: key 27 (Escape) with empty
unicode is appended as the empty string, leaving the buffer "hi"
unchanged. -/
theorem InputBox.keydown_appends_unicode_witness :
    (({ InputBox.init 0 0 10 10 (255, 255, 255) (0, 0, 0) 32 with
          active := true, text := "hi" } : InputBox).active = true
      ∧ (27 : Int) ≠ K_RETURN ∧ (27 : Int) ≠ K_BACKSPACE)
    ∧ (({ InputBox.init 0 0 10 10 (255, 255, 255) (0, 0, 0) 32 with
          active := true, text := "hi" } : InputBox).handle_event
          (Event.keyDown 27 (""))).1.text
        = ({ InputBox.init 0 0 10 10 (255, 255, 255) (0, 0, 0) 32 with
          active := true, text := "hi" } : InputBox).text :=
  ⟨⟨rfl, by decide, by decide⟩,
   (InputBox.keydown_appends_unicode
      { InputBox.init 0 0 10 10 (255, 255, 255) (0, 0, 0) 32 with
          active := true, text := "hi" } 27 ("") rfl (by decide) (by decide)).2.1 rfl⟩

/-- C2 fails on the code: with content_height = 100 smaller than the
viewport height 150, a single scroll-down event inside bounds sets
scroll_y to max(0 - 10, -(100 - 150)) = 50, a positive value, violating
the claimed invariant -(max(content_height - height, 0)) ≤ scroll_y ≤ 0
(which here pins scroll_y to 0).  The scroll-up branch clamps at 0, so the
≤ 0 intent of the spec is broken only by this missing lower-bound guard. -/
theorem ScrollView.scroll_down_breaks_invariant :
    (((ScrollView.init 0 0 100 150 (100, 100, 100) 100).handle_event
        (Event.mouseButtonDown (5, 5) 5)).scroll_y = 50)
    ∧ ¬(((ScrollView.init 0 0 100 150 (100, 100, 100) 100).handle_event
        (Event.mouseButtonDown (5, 5) 5)).scroll_y ≤ 0) := by
  decide

/-- C3 fails on the code: no constructor validates width or height.
Constructing a GameObject and a Button with width 0 succeeds, stores the
rect exactly as given, and yields a usable object whose hit test simply
answers false. -/
theorem GameObject.nonpositive_size_constructs :
    ((GameObject.init 5 5 0 10 (255, 0, 0)).rect
        = { x := 5, y := 5, w := 0, h := 10 })
    ∧ ((Button.init 5 5 0 10 (0, 255, 0) ("Start Game") (255, 255, 255) 36).rect.w = 0)
    ∧ ((Button.init 5 5 0 10 (0, 255, 0) ("Start Game") (255, 255, 255) 36).is_clicked
        (5, 12) = false) := by
  decide

/-- C3 amended: constructing any of the five Drawables with a non-positive
width or height raises no error; construction succeeds with the given
dimensions stored unchanged, and the resulting object is usable — a
Button's hit test is defined and rejects every point. -/
theorem drawable_init_no_validation (x y w h : Int) (c tc : Color)
    (t : String) (fs ch : Int) (p : Int × Int) (hw : w ≤ 0 ∨ h ≤ 0) :
    ((GameObject.init x y w h c).rect = { x := x, y := y, w := w, h := h })
    ∧ ((Button.init x y w h c t tc fs).rect = { x := x, y := y, w := w, h := h })
    ∧ ((Label.init x y w h c t tc fs).rect = { x := x, y := y, w := w, h := h })
    ∧ ((InputBox.init x y w h c tc fs).rect = { x := x, y := y, w := w, h := h })
    ∧ ((ScrollView.init x y w h c ch).rect = { x := x, y := y, w := w, h := h })
    ∧ ((Button.init x y w h c t tc fs).is_clicked p = false) := by
  refine ⟨rfl, rfl, rfl, rfl, rfl, ?_⟩
  rcases hw with hw | hw <;>
    · simp only [Button.is_clicked, Button.init, Rect.collidepoint,
        Bool.and_eq_true, decide_eq_true_eq, Bool.eq_false_iff, ne_eq]
      intro hcontra
      omega

/-- Witness for the amended C3 at width 0: all five constructors succeed
with the degenerate rect and the Button rejects the point (7,12). -/
theorem drawable_init_no_validation_witness :
    ((0 : Int) ≤ 0 ∨ (10 : Int) ≤ 0)
    ∧ ((GameObject.init 5 5 0 10 (1, 2, 3)).rect = { x := 5, y := 5, w := 0, h := 10 })
    ∧ ((Button.init 5 5 0 10 (1, 2, 3) ("b") (4, 5, 6) 36).is_clicked (7, 12) = false) :=
  ⟨Or.inl (by decide),
   (drawable_init_no_validation 5 5 0 10 (1, 2, 3) (4, 5, 6) ("b") 36 9 (7, 12)
      (Or.inl (by decide))).1,
   (drawable_init_no_validation 5 5 0 10 (1, 2, 3) (4, 5, 6) ("b") 36 9 (7, 12)
      (Or.inl (by decide))).2.2.2.2.2⟩

/-- A focused InputBox handling a KEYDOWN whose key is neither Return nor
Backspace only appends the unicode string to the buffer. -/
theorem InputBox.handle_keydown_other (box : InputBox) (k : Int) (u : String)
    (hact : box.active = true) (hret : k ≠ K_RETURN) (hback : k ≠ K_BACKSPACE) :
    (box.handle_event (Event.keyDown k u)).1 = { box with text := box.text ++ u } := by
  simp [InputBox.handle_event, hact, hret, hback]

/-- Folding a list of non-Return, non-Backspace KEYDOWN events through a
focused InputBox appends the concatenation of their unicode strings and
changes nothing else. -/
theorem InputBox.run_printable (box : InputBox) (ks : List (Int × String))
    (hact : box.active = true)
    (hkeys : ∀ p ∈ ks, p.1 ≠ K_RETURN ∧ p.1 ≠ K_BACKSPACE) :
    box.run (ks.map fun p => Event.keyDown p.1 p.2)
      = { box with text := box.text ++ strConcat (ks.map Prod.snd) } := by
  induction ks generalizing box with
  | nil =>
      simp [InputBox.run, strConcat, String.append_empty]
  | cons p rest ih =>
      have hp := hkeys p (List.mem_cons_self p rest)
      have hrest : ∀ q ∈ rest, q.1 ≠ K_RETURN ∧ q.1 ≠ K_BACKSPACE :=
        fun q hq => hkeys q (List.mem_cons_of_mem p hq)
      have hstep := InputBox.handle_keydown_other box p.1 p.2 hact hp.1 hp.2
      have hact2 : ({ box with text := box.text ++ p.2 } : InputBox).active = true := hact
      calc box.run ((p :: rest).map fun q => Event.keyDown q.1 q.2)
          = ({ box with text := box.text ++ p.2 } : InputBox).run
              (rest.map fun q => Event.keyDown q.1 q.2) := by
            simp [InputBox.run, hstep]
        _ = { box with text := box.text ++ p.2 ++ strConcat (rest.map Prod.snd) } :=
            ih _ hact2 hrest
        _ = { box with text := box.text ++ strConcat ((p :: rest).map Prod.snd) } := by
            simp [strConcat, String.append_assoc]

/-- C8: for a focused InputBox with empty buffer, handling printable keys
c1..cn in order yields buffer c1+...+cn; a following Return resets the
buffer to ""; and a Backspace handled while the buffer is empty leaves it
empty. -/
theorem InputBox.editing_session (box : InputBox) (ks : List (Int × String))
    (hact : box.active = true) (hempty : box.text = "")
    (hkeys : ∀ p ∈ ks, p.1 ≠ K_RETURN ∧ p.1 ≠ K_BACKSPACE) :
    ((box.run (ks.map fun p => Event.keyDown p.1 p.2)).text
        = strConcat (ks.map Prod.snd))
    ∧ (((box.run (ks.map fun p => Event.keyDown p.1 p.2)).handle_event
          (Event.keyDown K_RETURN (""))).1.text = "")
    ∧ ((((box.run (ks.map fun p => Event.keyDown p.1 p.2)).handle_event
          (Event.keyDown K_RETURN (""))).1.handle_event
          (Event.keyDown K_BACKSPACE (""))).1.text = "") := by
  have hrun := InputBox.run_printable box ks hact hkeys
  refine ⟨?_, ?_, ?_⟩
  · rw [hrun]
    simp [hempty, String.empty_append]
  · rw [hrun]
    simp [InputBox.handle_event, hact, K_RETURN, K_BACKSPACE]
  · rw [hrun]
    simp [InputBox.handle_event, hact, K_RETURN, K_BACKSPACE]
    decide

/-- Witness for C8 at a concrete focused empty box and the two printable
keys (97,"a"), (98,"b"): typing yields "ab", Return clears it, and a
Backspace on the now-empty buffer keeps it empty. -/
theorem InputBox.editing_session_witness :
    (({ InputBox.init 300 350 200 40 (255, 255, 255) (0, 0, 0) 32 with
          active := true } : InputBox).active = true
      ∧ ({ InputBox.init 300 350 200 40 (255, 255, 255) (0, 0, 0) 32 with
          active := true } : InputBox).text = ""
      ∧ (∀ p ∈ [((97 : Int), "a"), ((98 : Int), "b")],
          p.1 ≠ K_RETURN ∧ p.1 ≠ K_BACKSPACE))
    ∧ ((({ InputBox.init 300 350 200 40 (255, 255, 255) (0, 0, 0) 32 with
            active := true } : InputBox).run
          ([((97 : Int), "a"), ((98 : Int), "b")].map fun p => Event.keyDown p.1 p.2)).text
        = strConcat ([((97 : Int), "a"), ((98 : Int), "b")].map Prod.snd))
    ∧ (((({ InputBox.init 300 350 200 40 (255, 255, 255) (0, 0, 0) 32 with
            active := true } : InputBox).run
          ([((97 : Int), "a"), ((98 : Int), "b")].map fun p => Event.keyDown p.1 p.2)).handle_event
          (Event.keyDown K_RETURN (""))).1.text = "")
    ∧ (((({ InputBox.init 300 350 200 40 (255, 255, 255) (0, 0, 0) 32 with
            active := true } : InputBox).run
          ([((97 : Int), "a"), ((98 : Int), "b")].map fun p => Event.keyDown p.1 p.2)).handle_event
          (Event.keyDown K_RETURN (""))).1.handle_event
          (Event.keyDown K_BACKSPACE (""))).1.text = "" :=
  have h := InputBox.editing_session
    { InputBox.init 300 350 200 40 (255, 255, 255) (0, 0, 0) 32 with active := true }
    [((97 : Int), "a"), ((98 : Int), "b")] rfl rfl (by decide)
  ⟨⟨rfl, rfl, by decide⟩, h.1, h.2.1, h.2.2⟩

/-- One pass of the child loop in ScrollView.draw: it emits the child's
fill shifted down by scroll_y and hands back the child with its original
rect (the += and -= cancel exactly over the integers). -/
theorem ScrollView.drawChild_restore (s : Int) (acc : Screen × List GameObject)
    (child : GameObject) :
    ScrollView.drawChild s acc child
      = ({ acc.1 with cmds := acc.1.cmds ++
            [DrawCmd.fillRect { child.rect with y := child.rect.y + s } child.color] },
         acc.2 ++ [child]) := by
  have hy : child.rect.y + s - s = child.rect.y := by omega
  simp [ScrollView.drawChild, GameObject.draw, hy]

/-- The whole child loop of ScrollView.draw: the screen gains one shifted
fill per child and the children come back exactly as they went in. -/
theorem ScrollView.drawChildren_spec (s : Int) (cs : List GameObject) :
    ∀ (scr : Screen) (acc : List GameObject),
    cs.foldl (ScrollView.drawChild s) (scr, acc)
      = ({ scr with cmds := scr.cmds ++
            (cs.map (fun child =>
              DrawCmd.fillRect { child.rect with y := child.rect.y + s } child.color)) },
         acc ++ cs) := by
  induction cs with
  | nil => intro scr acc; simp
  | cons c rest ih =>
      intro scr acc
      rw [List.foldl_cons, ScrollView.drawChild_restore, ih]
      simp

/-- The draw commands a single ScrollView.draw call appends, as a function
of the view and the incoming clip region: clip to the view, fill the base
rect, fill each child shifted by scroll_y, restore the incoming clip. -/
def ScrollView.drawOut (sv : ScrollView) (clip : Option Rect) : List DrawCmd :=
  DrawCmd.setClip (some sv.rect) :: DrawCmd.fillRect sv.rect sv.color ::
    ((sv.children.map fun child =>
        DrawCmd.fillRect { child.rect with y := child.rect.y + sv.scroll_y } child.color)
      ++ [DrawCmd.setClip clip])

/-- ScrollView.draw in closed form: the view comes back unchanged, the
clip is restored, and the screen log grows by exactly `drawOut`. -/
theorem ScrollView.draw_spec (sv : ScrollView) (screen : Screen) :
    sv.draw screen
      = (sv, { clip := screen.clip,
               cmds := screen.cmds ++ sv.drawOut screen.clip }) := by
  simp [ScrollView.draw, Screen.set_clip, Screen.get_clip, GameObject.draw,
        ScrollView.drawChildren_spec, ScrollView.drawOut]

/-- C5: ScrollView.draw leaves the view — every child's stored rect
included — exactly as it was, restores the incoming clip region, and a
second draw with no intervening events appends to the screen log exactly
the commands the first draw appended. -/
theorem ScrollView.draw_idempotent (sv : ScrollView) (screen : Screen) :
    ((sv.draw screen).1 = sv)
    ∧ ((sv.draw screen).1.children = sv.children)
    ∧ ((sv.draw screen).2.clip = screen.clip)
    ∧ (((sv.draw screen).1.draw (sv.draw screen).2).2.cmds
        = (sv.draw screen).2.cmds
          ++ ((sv.draw screen).2.cmds.drop screen.cmds.length)) := by
  refine ⟨?_, ?_, ?_, ?_⟩ <;>
    simp [ScrollView.draw_spec, List.drop_left]

/-- The button-scan loop prints exactly one click line per Button whose
hit test succeeds, in widget-list order; non-Buttons and missed Buttons
contribute nothing. -/
theorem clickScan_eq_filter (pos : Int × Int) (ui : List UIElement) :
    clickScan pos ui
      = ((buttonsOf ui).filter (fun b => b.is_clicked pos)).map clickMessage := by
  induction ui with
  | nil => rfl
  | cons u rest ih =>
      cases u with
      | button b =>
          by_cases hb : b.is_clicked pos <;>
            simp [clickScan, buttonsOf, clickMessage, ih, hb]
      | gameObject g => simp [clickScan, buttonsOf, ih]
      | label l => simp [clickScan, buttonsOf, ih]
      | inputBox box => simp [clickScan, buttonsOf, ih]
      | scrollView sv => simp [clickScan, buttonsOf, ih]

/-- Forwarding a MOUSEBUTTONDOWN event to the widget list prints nothing:
only the Return branch of InputBox.handle_event prints, and it is
unreachable from a mouse event. -/
theorem routeList_mouse_silent (ui : List UIElement) (pos : Int × Int)
    (btn : Int) :
    (routeList ui (Event.mouseButtonDown pos btn)).2 = [] := by
  induction ui with
  | nil => rfl
  | cons u rest ih =>
      cases u <;> simp [routeList, UIElement.route, InputBox.handle_event, ih]

/-- C7: on a primary-button pointer press the router prints a click line
for each and every Button in the widget list whose hit test succeeds —
all-match semantics over the whole list, in order — and no line for any
Button whose hit test fails or for any non-Button widget. -/
theorem GameEngine.click_all_match (engine : GameEngine) (pos : Int × Int) :
    (engine.handle_events [Event.mouseButtonDown pos 1]).2
      = ((buttonsOf engine.ui_elements).filter (fun b => b.is_clicked pos)).map
          clickMessage := by
  simp [GameEngine.handle_events, GameEngine.handle_one, clickScan_eq_filter,
        routeList_mouse_silent]

/-- One router step never turns the running flag back on: it is false
afterwards exactly when it was false before or the event is QUIT. -/
theorem GameEngine.handle_one_running (st : GameEngine × List String)
    (e : Event) :
    (GameEngine.handle_one st e).1.running
      = (st.1.running && !(decide (e = Event.quit))) := by
  cases e <;> simp [GameEngine.handle_one]

/-- The event loop's effect on the running flag: false at the end of the
frame exactly when it started false or a QUIT appears anywhere in the
queue.  Events before, at, or after the QUIT are all still folded. -/
theorem GameEngine.handle_events_running (evs : List Event) :
    ∀ st : GameEngine × List String,
    (evs.foldl GameEngine.handle_one st).1.running
      = (st.1.running && !(decide (Event.quit ∈ evs))) := by
  induction evs with
  | nil => intro st; simp
  | cons e rest ih =>
      intro st
      rw [List.foldl_cons, ih, GameEngine.handle_one_running]
      cases e <;> simp

/-- One router step forwards the event to the widget list exactly as
`routeList` does, whatever the event kind (QUIT included). -/
theorem GameEngine.handle_one_ui (st : GameEngine × List String) (e : Event) :
    (GameEngine.handle_one st e).1.ui_elements
      = (routeList st.1.ui_elements e).1 := by
  cases e <;> simp [GameEngine.handle_one]

/-- The event loop's effect on the widget list is the fold of `routeList`
over the entire queue, independent of the running flag. -/
theorem GameEngine.handle_events_ui (evs : List Event) :
    ∀ st : GameEngine × List String,
    (evs.foldl GameEngine.handle_one st).1.ui_elements
      = routeAllEvents st.1.ui_elements evs := by
  induction evs with
  | nil => intro st; simp [routeAllEvents]
  | cons e rest ih =>
      intro st
      rw [List.foldl_cons, ih, GameEngine.handle_one_ui]
      simp [routeAllEvents]

/-- C1 amended: a QUIT anywhere in the frame's queue leaves the running
flag false at the end of handle_events, but processing does not stop: the
final widget state is the fold of the widget forwarding over the entire
queue, the events after the QUIT included, exactly as if no QUIT were
present. -/
theorem GameEngine.quit_no_short_circuit (engine : GameEngine)
    (pre post : List Event) :
    ((engine.handle_events (pre ++ Event.quit :: post)).1.running = false)
    ∧ ((engine.handle_events (pre ++ Event.quit :: post)).1.ui_elements
        = routeAllEvents engine.ui_elements (pre ++ Event.quit :: post)) := by
  constructor
  · rw [GameEngine.handle_events, GameEngine.handle_events_running]
    simp
  · rw [GameEngine.handle_events, GameEngine.handle_events_ui]

/-- C1 as stated fails on the code: in the queue [QUIT, press-at-(5,5)],
the press event that follows the quit signal is still processed — the
InputBox at (0,0,10,10) ends the frame focused.  Under the claimed
short-circuit it would have stayed unfocused. -/
theorem GameEngine.quit_then_next_event_processed :
    ((GameEngine.mk true []
        [UIElement.inputBox (InputBox.init 0 0 10 10 (255, 255, 255) (0, 0, 0) 32)]).handle_events
        [Event.quit, Event.mouseButtonDown (5, 5) 1]).1
      = GameEngine.mk false []
          [UIElement.inputBox
            { InputBox.init 0 0 10 10 (255, 255, 255) (0, 0, 0) 32 with
                active := true }] := by
  decide
